import Mathlib

/-!
Shallow embedding of the Clip3 highlight pipeline (src/App.tsx, first
document: the `Clip3` variant with frame sampling, together with its
types.ts).  Timestamps and durations are modelled as rationals, blobs as
byte lists, and the browser / ffmpeg environment as explicit records of
outcomes.  The React state updates become explicit state passing.
-/

namespace Clip3

/-- Browser `Blob` value: raw bytes plus a mime type
(`new Blob([data], { type })`). -/
structure Blob where
  bytes : List Nat
  mimeType : String
deriving DecidableEq

/-- Model of `Highlight` from types.ts.  `playerJerseyNumber`, `clipUrl` and
`clipBlob` are optional fields. -/
structure Highlight where
  timestampSeconds : ℚ
  displayTime : String
  description : String
  scoreType : String
  intensity : String
  playerJerseyNumber : Option String
  clipBlob : Option Blob
  clipUrl : Option String
deriving DecidableEq

/-- Model of `AnalysisResult` from types.ts. -/
structure AnalysisResult where
  highlights : List Highlight
  summary : String
  videoId : Option String
deriving DecidableEq

/-- Model of `HistoryItem` from types.ts. -/
structure HistoryItem where
  id : String
  fileName : String
  timestamp : Int
  result : AnalysisResult
deriving DecidableEq

/-- Model of `AnalysisStatus` from types.ts. -/
inductive AnalysisStatus where
  | IDLE
  | UPLOADING
  | SAMPLING
  | ANALYZING
  | CLIPPING
  | COMPLETED
  | ERROR
deriving DecidableEq

/-- A selected `File`: the fields the pipeline reads
(`name`, `size`, `lastModified`, `type`). -/
structure VideoFile where
  name : String
  size : Nat
  lastModified : Int
  mimeType : String
deriving DecidableEq

/-- Model of `getFileId`: the template literal
`` `${file.name}-${file.size}-${file.lastModified}` ``. -/
def getFileId (file : VideoFile) : String :=
  file.name ++ "-" ++ toString file.size ++ "-" ++ toString file.lastModified

/-- JavaScript `String.prototype.toLowerCase`, per character. -/
def jsToLower (s : String) : String :=
  String.mk (s.toList.map Char.toLower)

/-- JavaScript `String.prototype.includes`: substring containment. -/
def jsIncludes (s needle : String) : Bool :=
  decide (needle.toList <:+: s.toList)

/-- JavaScript `String.prototype.trim`: strip whitespace from both ends. -/
def jsTrim (s : String) : String :=
  String.mk (((s.toList.dropWhile Char.isWhitespace).reverse.dropWhile
    Char.isWhitespace).reverse)

/-- The optional chain `h.playerJerseyNumber?.toLowerCase().includes(t)`:
`false` (falsy `undefined`) when the field is absent. -/
def jerseyChainIncludes (jersey : Option String) (t : String) : Bool :=
  match jersey with
  | none => false
  | some j => jsIncludes (jsToLower j) t

/-- Model of `filteredHighlights` (the `useMemo` body): empty list without results;
the untouched highlight list when `targetJersey.trim()` is falsy; otherwise
the filter over the optional-chained, lower-cased containment test. -/
def filteredHighlights (results : Option AnalysisResult) (targetJersey : String) :
    List Highlight :=
  match results with
  | none => []
  | some r =>
    if jsTrim targetJersey = "" then r.highlights
    else r.highlights.filter (fun h =>
      jerseyChainIncludes h.playerJerseyNumber (jsToLower (jsTrim targetJersey)))

/-- The spec-side filter predicate, written from the words of the claim: the
field `playerJerseyNumber` of the highlight case-insensitively contains `n` as a
substring (a highlight without a jersey number matches nothing). -/
def specJerseyMatches (n : String) (h : Highlight) : Bool :=
  match h.playerJerseyNumber with
  | none => false
  | some j => decide ((n.toList.map Char.toLower) <:+: (j.toList.map Char.toLower))

/-- The `setHistory` updater in `startAnalysis`:
`[historyItem, ...prev.filter(h => h.id !== fileId)].slice(0, 10)`
(with `fileId = historyItem.id`). -/
def putHistory (item : HistoryItem) (prev : List HistoryItem) : List HistoryItem :=
  (item :: prev.filter (fun h => !(h.id == item.id))).take 10

/-- Constant `TARGET_FRAME_COUNT = 100`: total frames to send to the AI. -/
def TARGET_FRAME_COUNT : Nat := 100

/-- The metadata the hidden `<video>` element exposes once
`onloadedmetadata` fires. -/
structure VideoMetadata where
  duration : ℚ
  videoWidth : ℚ
  videoHeight : ℚ

/-- The browser decode environment seen by `sampleFrames`: `metadata` is
`none` when the element fires `onerror` instead of `onloadedmetadata`
(corrupt or undecodable source); `ctx2d` records whether
the 2d canvas context was obtained; `frameData` gives the
base64 jpeg the canvas rasterizes at a seek position. -/
structure SamplingEnv where
  metadata : Option VideoMetadata
  ctx2d : Bool
  frameData : ℚ → String

/-- One sampled frame: the pair of parts pushed per loop tick (the
`inlineData` jpeg plus its timestamp annotation). -/
structure SampledFrame where
  timestampSeconds : ℚ
  data : String
  mimeType : String
deriving DecidableEq

/-- Model of `sampleFrames`: on `onerror` the promise rejects; otherwise the loop
runs `i = 0 .. TARGET_FRAME_COUNT - 1`, seeks to `i * interval` with
`interval = duration / TARGET_FRAME_COUNT`, and pushes a frame whenever
the 2d context exists (the `if (ctx)` guard). -/
def sampleFrames (env : SamplingEnv) : Except String (List SampledFrame) :=
  match env.metadata with
  | none => .error "Failed to load video for sampling."
  | some meta =>
    let interval : ℚ := meta.duration / (TARGET_FRAME_COUNT : ℚ)
    .ok ((List.range TARGET_FRAME_COUNT).filterMap (fun (i : Nat) =>
      let time : ℚ := (i : ℚ) * interval
      if env.ctx2d then
        some ⟨time, env.frameData time, "image/jpeg"⟩
      else none))

/-- The ffmpeg session state: `ffmpegCurrent` models
`ffmpegRef.current !== null`, `isEngineAvailable` the
`useState<boolean | null>` flag. -/
structure EngineState where
  ffmpegCurrent : Bool
  isEngineAvailable : Option Bool
deriving DecidableEq

/-- Outcomes of the ffmpeg/browser boundary for one `generateClips` batch:
whether `ffmpeg.load` would succeed if attempted, whether
`ffmpeg.writeFile` of the input succeeds, the bytes `ffmpeg.readFile`
returns for `clip_i` (`none` when `exec`/`readFile` for that clip throws),
and the object URL `URL.createObjectURL` mints for a blob. -/
structure ClipEnv where
  loadSucceeds : Bool
  writeFileSucceeds : Bool
  execResult : Nat → Option (List Nat)
  mkUrl : Blob → String

/-- Result of `tryLoadFFmpeg`: whether a non-null engine was returned,
whether `ffmpeg.load` was attempted, and the updated session state. -/
structure LoadResult where
  engine : Bool
  attemptedLoad : Bool
  state : EngineState
deriving DecidableEq

/-- Model of `tryLoadFFmpeg`: return the memoized instance if present; short-circuit
to `null` when `isEngineAvailable === false`; otherwise attempt the load,
memoizing on success and latching `isEngineAvailable = false` on failure. -/
def tryLoadFFmpeg (env : ClipEnv) (s : EngineState) : LoadResult :=
  if s.ffmpegCurrent then ⟨true, false, s⟩
  else if s.isEngineAvailable = some false then ⟨false, false, s⟩
  else if env.loadSucceeds then ⟨true, true, ⟨true, some true⟩⟩
  else ⟨false, true, ⟨s.ffmpegCurrent, some false⟩⟩

/-- Audio detection: file type starting with audio/ or file name ending in .mp3. -/
def jsIsAudioOnly (file : VideoFile) : Bool :=
  file.mimeType.startsWith "audio/" || file.name.endsWith ".mp3"

/-- The body of the `for` loop over `updatedHighlights`: clip `i` is
trimmed from `max(0, h.timestampSeconds - 5)` for 10 seconds; on success
the highlight gains `clipBlob`/`clipUrl`, on a caught per-clip failure it
is left as it was; either way the loop continues.  Returns the updated
list together with the `(start, duration)` trim requests issued. -/
def clipLoop (env : ClipEnv) (blobType : String) :
    Nat → List Highlight → List Highlight × List (ℚ × ℚ)
  | _, [] => ([], [])
  | i, h :: rest =>
    let start : ℚ := max 0 (h.timestampSeconds - 5)
    let clipDuration : ℚ := 10
    let updated :=
      match env.execResult i with
      | some data =>
        let blob : Blob := ⟨data, blobType⟩
        { h with clipBlob := some blob, clipUrl := some (env.mkUrl blob) }
      | none => h
    let rest' := clipLoop env blobType (i + 1) rest
    (updated :: rest'.1, (start, clipDuration) :: rest'.2)

/-- What one `generateClips` call did: the returned analysis, the engine
state afterwards, whether `ffmpeg.load` was attempted, and the trim
requests issued. -/
structure ClipOutcome where
  result : AnalysisResult
  state : EngineState
  attemptedLoad : Bool
  trimRequests : List (ℚ × ℚ)

/-- Model of `generateClips`: return the analysis untouched when it has no
highlights, when no engine is obtained, or when writing the input file
throws (outer catch); otherwise run the per-clip loop. -/
def generateClips (env : ClipEnv) (analysis : AnalysisResult) (file : VideoFile)
    (s : EngineState) : ClipOutcome :=
  if analysis.highlights.length = 0 then ⟨analysis, s, false, []⟩
  else
    let lr := tryLoadFFmpeg env s
    if lr.engine = false then ⟨analysis, lr.state, lr.attemptedLoad, []⟩
    else if env.writeFileSucceeds = false then ⟨analysis, lr.state, lr.attemptedLoad, []⟩
    else
      let blobType := if jsIsAudioOnly file then file.mimeType else "video/mp4"
      let looped := clipLoop env blobType 0 analysis.highlights
      ⟨{ analysis with highlights := looped.1 }, lr.state, lr.attemptedLoad, looped.2⟩

/-- The environment of one `startAnalysis` run: the decode
environment, what `analyzeVideo` returns (or the error it throws), the
clip-engine outcomes, and `Date.now()`. -/
structure RunEnv where
  sampling : SamplingEnv
  analysisOutcome : Except String AnalysisResult
  clip : ClipEnv
  now : Int

/-- Observable outcome of one `startAnalysis` run. -/
structure RunResult where
  status : AnalysisStatus
  results : Option AnalysisResult
  history : List HistoryItem
  engine : EngineState
  errorMsg : Option String
  analyzeCalled : Bool
  sampleCalled : Bool
  clipInput : Option AnalysisResult

/-- Model of `startAnalysis`: on a history hit, clips are re-derived from the cached
result and the run completes; otherwise sample, analyze, record the
history item (bounded to 10), clip, and complete, with any sampling or
analysis failure caught into the ERROR state. -/
def startAnalysis (env : RunEnv) (file : VideoFile) (hist : List HistoryItem)
    (s : EngineState) (results0 : Option AnalysisResult) : RunResult :=
  let fileId := getFileId file
  match hist.find? (fun item => item.id == fileId) with
  | some cached =>
    let out := generateClips env.clip cached.result file s
    ⟨.COMPLETED, some out.result, hist, out.state, none, false, false, some cached.result⟩
  | none =>
    match sampleFrames env.sampling with
    | .error msg => ⟨.ERROR, results0, hist, s, some msg, false, true, none⟩
    | .ok _frames =>
      match env.analysisOutcome with
      | .error msg => ⟨.ERROR, results0, hist, s, some msg, true, true, none⟩
      | .ok analysis =>
        let historyItem : HistoryItem := ⟨fileId, file.name, env.now, analysis⟩
        let hist' := putHistory historyItem hist
        let out := generateClips env.clip analysis file s
        ⟨.COMPLETED, some out.result, hist', out.state, none, true, true, some analysis⟩

/-- The non-clip fields of a highlight, used to state that clipping only
ever adds clip data. -/
def coreFields (h : Highlight) :
    ℚ × String × String × String × String × Option String :=
  (h.timestampSeconds, h.displayTime, h.description, h.scoreType,
    h.intensity, h.playerJerseyNumber)

/-! ### Concrete instances reused by witnesses and counterexamples -/

/-- A highlight for jersey number 7. -/
def exHighlight7 : Highlight := ⟨7, "00:07", "goal", "Goal", "High", some "7", none, none⟩

/-- A highlight for jersey number 23. -/
def exHighlight23 : Highlight :=
  ⟨45, "00:45", "triple", "3-Pointer", "Medium", some "23", none, none⟩

/-- A two-highlight analysis result. -/
def exResult : AnalysisResult := ⟨[exHighlight7, exHighlight23], "great match", none⟩

/-- An analysis result with no highlights. -/
def exEmptyResult : AnalysisResult := ⟨[], "quiet match", none⟩

/-- A selected video file. -/
def exFile : VideoFile := ⟨"match.mp4", 1000, 5, "video/mp4"⟩

/-- A history item caching `exResult` under the identity of `exFile`. -/
def exItem : HistoryItem := ⟨getFileId exFile, "match.mp4", 0, exResult⟩

/-- History items with pairwise distinct identities, for cache witnesses. -/
def mkItem (n : Nat) : HistoryItem := ⟨toString n, "f", 0, exEmptyResult⟩

/-! ### Helper lemmas -/

theorem filterMap_some_eq_map {α β : Type} (f : α → β) :
    ∀ l : List α, l.filterMap (fun a => some (f a)) = l.map f := by
  intro l
  induction l with
  | nil => rfl
  | cons a l ih => simp [List.filterMap_cons, ih]

theorem jerseyChain_eq_spec (h : Highlight) (t : String) :
    jerseyChainIncludes h.playerJerseyNumber (jsToLower t) = specJerseyMatches t h := by
  cases hj : h.playerJerseyNumber with
  | none => simp [jerseyChainIncludes, specJerseyMatches, hj]
  | some j => simp [jerseyChainIncludes, specJerseyMatches, hj, jsIncludes, jsToLower]

/-! ### Claims -/

/-- C3: the history cache `putHistory` never holds more than 10 entries,
keeps exactly one entry for the written identity (most-recently-written
wins, placed at the head), preserves the at-most-one-entry-per-identity
invariant, and on inserting an 11th distinct entry evicts exactly the
single oldest entry by write order (the last element, since new entries
are prepended). -/
theorem cache_put_properties (item : HistoryItem) (prev : List HistoryItem) :
    (putHistory item prev).length ≤ 10
    ∧ (putHistory item prev).countP (fun h => h.id == item.id) = 1
    ∧ (putHistory item prev).head? = some item
    ∧ ((∀ k, prev.countP (fun h => h.id == k) ≤ 1) →
        ∀ k, (putHistory item prev).countP (fun h => h.id == k) ≤ 1)
    ∧ (prev.length = 10 → (∀ h ∈ prev, h.id ≠ item.id) →
        putHistory item prev = item :: prev.dropLast) := by
  have hshape : putHistory item prev
      = item :: (prev.filter (fun h => !(h.id == item.id))).take 9 := rfl
  refine ⟨?_, ?_, ?_, ?_, ?_⟩
  · rw [putHistory, List.length_take]
    exact min_le_left _ _
  · rw [hshape, List.countP_cons_of_pos _ _ (by simp)]
    have : ∀ h ∈ (prev.filter (fun h => !(h.id == item.id))).take 9,
        ¬ ((h.id == item.id) = true) := by
      intro h hmem
      have := List.mem_filter.mp (List.mem_of_mem_take hmem)
      simpa using this.2
    simp [List.countP_eq_zero.mpr this]
  · rw [hshape]; rfl
  · intro hwf k
    rw [hshape]
    by_cases hk : item.id = k
    · rw [List.countP_cons_of_pos _ _ (by simp [hk])]
      have : ∀ h ∈ (prev.filter (fun h => !(h.id == item.id))).take 9,
          ¬ ((h.id == k) = true) := by
        intro h hmem
        have := List.mem_filter.mp (List.mem_of_mem_take hmem)
        simpa [hk] using this.2
      simp [List.countP_eq_zero.mpr this]
    · rw [List.countP_cons_of_neg _ _ (by simp [hk])]
      calc ((prev.filter (fun h => !(h.id == item.id))).take 9).countP
              (fun h => h.id == k)
          ≤ (prev.filter (fun h => !(h.id == item.id))).countP (fun h => h.id == k) :=
            (List.take_sublist _ _).countP_le _
        _ ≤ prev.countP (fun h => h.id == k) := (List.filter_sublist _).countP_le _
        _ ≤ 1 := hwf k
  · intro hlen hdistinct
    have hfilter : prev.filter (fun h => !(h.id == item.id)) = prev := by
      rw [List.filter_eq_self]
      intro h hmem
      simpa using hdistinct h hmem
    rw [hshape, hfilter, List.dropLast_eq_take, hlen]

/-- Witness for C3 at a concrete full cache and a fresh item. -/
theorem cache_put_properties_witness :
    (putHistory exItem ((List.range 10).map mkItem)).length ≤ 10
    ∧ (putHistory exItem ((List.range 10).map mkItem)).countP
        (fun h => h.id == exItem.id) = 1
    ∧ (putHistory exItem ((List.range 10).map mkItem)).head? = some exItem
    ∧ (∀ k, (putHistory exItem ((List.range 10).map mkItem)).countP
        (fun h => h.id == k) ≤ 1)
    ∧ putHistory exItem ((List.range 10).map mkItem)
        = exItem :: ((List.range 10).map mkItem).dropLast := by
  obtain ⟨h1, h2, h3, h4, h5⟩ := cache_put_properties exItem ((List.range 10).map mkItem)
  refine ⟨h1, h2, h3, h4 ?_, h5 (by decide) (by decide)⟩
  intro k
  by_cases hk : ∃ n ∈ List.range 10, toString n = k
  · obtain ⟨n, hn, rfl⟩ := hk
    fin_cases hn <;> decide
  · have : ∀ h ∈ (List.range 10).map mkItem, ¬ ((h.id == k) = true) := by
      intro h hmem hbeq
      obtain ⟨n, hn, rfl⟩ := List.mem_map.mp hmem
      exact hk ⟨n, hn, by simpa [mkItem] using hbeq⟩
    simp [List.countP_eq_zero.mpr this]

/-- C4 (amended): filtering by the empty string returns the highlight list
unchanged; filtering by a string whose trimmed form is non-empty returns
exactly the highlights whose `playerJerseyNumber` case-insensitively
contains the trimmed filter string as a substring, in their original
order.  (The code trims the filter before matching, so the original claim
fails for whitespace-padded non-empty filter strings.) -/
theorem jersey_filter_trim_behavior (r : AnalysisResult) (n : String) :
    filteredHighlights (some r) "" = r.highlights
    ∧ (jsTrim n ≠ "" →
        filteredHighlights (some r) n
          = r.highlights.filter (fun h => specJerseyMatches (jsTrim n) h)) := by
  constructor
  · rfl
  · intro hn
    rw [filteredHighlights, if_neg hn]
    exact List.filter_congr (fun h _ => jerseyChain_eq_spec h (jsTrim n))

/-- Witness for C4 at the two-highlight scenario of the spec with filter "7". -/
theorem jersey_filter_trim_behavior_witness :
    filteredHighlights (some exResult) "" = exResult.highlights
    ∧ (jsTrim "7" ≠ ""
    ∧ filteredHighlights (some exResult) "7"
        = exResult.highlights.filter (fun h => specJerseyMatches (jsTrim "7") h)) :=
  ⟨(jersey_filter_trim_behavior exResult "7").1,
    by decide, (jersey_filter_trim_behavior exResult "7").2 (by decide)⟩

/-- Counterexample for C4 as stated: for the non-empty filter string
`" "` (one space), the code returns the highlight list unchanged (trim
makes the filter falsy), yet no jersey number among the highlights contains `" "`,
so the claimed characterization predicts the empty list. -/
theorem jersey_filter_claim_counterexample :
    (" " : String) ≠ ""
    ∧ filteredHighlights (some exResult) " " = exResult.highlights
    ∧ exResult.highlights.filter (fun h => specJerseyMatches " " h) = []
    ∧ filteredHighlights (some exResult) " "
        ≠ exResult.highlights.filter (fun h => specJerseyMatches " " h) := by
  refine ⟨by decide, by decide, by decide, by decide⟩

/-- The frame pushed for loop tick `i` when the 2d context is live: a
shorthand for the loop body of `sampleFrames`. -/
def tickFrame (env : SamplingEnv) (meta : VideoMetadata) (i : Nat) : SampledFrame :=
  ⟨(i : ℚ) * (meta.duration / (TARGET_FRAME_COUNT : ℚ)),
    env.frameData ((i : ℚ) * (meta.duration / (TARGET_FRAME_COUNT : ℚ))),
    "image/jpeg"⟩

/-- Helper: with loadable metadata and a live 2d context, `sampleFrames`
succeeds with one frame per loop tick. -/
theorem sampleFrames_ok (env : SamplingEnv) (meta : VideoMetadata)
    (hm : env.metadata = some meta) (hc : env.ctx2d = true) :
    sampleFrames env = .ok ((List.range TARGET_FRAME_COUNT).map (tickFrame env meta)) := by
  rw [sampleFrames, hm]
  simp only [hc, if_true]
  exact congrArg Except.ok (filterMap_some_eq_map (tickFrame env meta) _)

/-- C2: for every decodable video with positive duration D, `sampleFrames`
produces exactly `TARGET_FRAME_COUNT = 100` frames, and the timestamp of
the i-th frame is `i * (D / 100)`, which lies in `[0, D)` — the samples are
evenly spaced across the video. -/
theorem sampler_frame_spacing (env : SamplingEnv) (meta : VideoMetadata)
    (hm : env.metadata = some meta) (hc : env.ctx2d = true)
    (hD : 0 < meta.duration) :
    TARGET_FRAME_COUNT = 100
    ∧ ∃ frames, sampleFrames env = .ok frames
      ∧ frames.length = TARGET_FRAME_COUNT
      ∧ ∀ i, (hi : i < frames.length) →
          (frames.get ⟨i, hi⟩).timestampSeconds
              = (i : ℚ) * (meta.duration / (TARGET_FRAME_COUNT : ℚ))
          ∧ 0 ≤ (frames.get ⟨i, hi⟩).timestampSeconds
          ∧ (frames.get ⟨i, hi⟩).timestampSeconds < meta.duration := by
  refine ⟨rfl, _, sampleFrames_ok env meta hm hc, by simp, ?_⟩
  intro i hi
  have hilt : i < TARGET_FRAME_COUNT := by
    simpa using hi
  have hget : ((List.range TARGET_FRAME_COUNT).map (tickFrame env meta)).get ⟨i, hi⟩
      = tickFrame env meta i := by
    rw [List.get_eq_getElem, List.getElem_map, List.getElem_range]
  rw [hget]
  refine ⟨rfl, ?_, ?_⟩
  · have h100 : (0 : ℚ) < (TARGET_FRAME_COUNT : ℚ) := by
      norm_num [TARGET_FRAME_COUNT]
    have := div_pos hD h100
    rw [tickFrame]
    positivity
  · have hcast : (i : ℚ) < (TARGET_FRAME_COUNT : ℚ) := by exact_mod_cast hilt
    have hpos : 0 < meta.duration / (TARGET_FRAME_COUNT : ℚ) :=
      div_pos hD (by norm_num [TARGET_FRAME_COUNT])
    have hne : (TARGET_FRAME_COUNT : ℚ) ≠ 0 := by norm_num [TARGET_FRAME_COUNT]
    calc (tickFrame env meta i).timestampSeconds
        = (i : ℚ) * (meta.duration / (TARGET_FRAME_COUNT : ℚ)) := rfl
      _ < (TARGET_FRAME_COUNT : ℚ) * (meta.duration / (TARGET_FRAME_COUNT : ℚ)) :=
          mul_lt_mul_of_pos_right hcast hpos
      _ = meta.duration := mul_div_cancel₀ meta.duration hne

/-- A decode environment for a 120-second video. -/
def exSamplingEnv120 : SamplingEnv := ⟨some ⟨120, 1920, 1080⟩, true, fun _ => "frame"⟩

/-- Witness for C2 on a 120-second video. -/
theorem sampler_frame_spacing_witness :
    TARGET_FRAME_COUNT = 100
    ∧ ∃ frames, sampleFrames exSamplingEnv120 = .ok frames
      ∧ frames.length = TARGET_FRAME_COUNT
      ∧ ∀ i, (hi : i < frames.length) →
          (frames.get ⟨i, hi⟩).timestampSeconds
              = (i : ℚ) * ((120 : ℚ) / (TARGET_FRAME_COUNT : ℚ))
          ∧ 0 ≤ (frames.get ⟨i, hi⟩).timestampSeconds
          ∧ (frames.get ⟨i, hi⟩).timestampSeconds < (120 : ℚ) :=
  sampler_frame_spacing exSamplingEnv120 ⟨120, 1920, 1080⟩ rfl rfl (by norm_num)

/-- A decode environment whose video reports duration 0. -/
def exSamplingEnvZero : SamplingEnv := ⟨some ⟨0, 640, 480⟩, true, fun _ => "frame"⟩

/-- A decode environment whose video cannot be decoded at all. -/
def exSamplingEnvBad : SamplingEnv := ⟨none, true, fun _ => "frame"⟩

/-- C7 (amended): the sampler rejects with a sampling error when the
source cannot be decoded (the element fires `onerror`); but when the
duration is zero it does NOT fail — it resolves with the full
`TARGET_FRAME_COUNT` frames, all carrying timestamp 0 (there is no
zero-duration check in `sampleFrames`). -/
theorem sampler_failure_modes (env : SamplingEnv) :
    (env.metadata = none →
      sampleFrames env = .error "Failed to load video for sampling.")
    ∧ (∀ meta, env.metadata = some meta → meta.duration = 0 → env.ctx2d = true →
        ∃ frames, sampleFrames env = .ok frames
          ∧ frames.length = TARGET_FRAME_COUNT
          ∧ ∀ f ∈ frames, f.timestampSeconds = 0) := by
  constructor
  · intro h
    rw [sampleFrames, h]
  · intro meta hm hzero hc
    refine ⟨_, sampleFrames_ok env meta hm hc, by simp, ?_⟩
    intro f hf
    obtain ⟨i, _, rfl⟩ := List.mem_map.mp hf
    simp [tickFrame, hzero]

/-- Witness for C7 (amended) at a zero-duration video and an undecodable
video. -/
theorem sampler_failure_modes_witness :
    sampleFrames exSamplingEnvBad = .error "Failed to load video for sampling."
    ∧ ∃ frames, sampleFrames exSamplingEnvZero = .ok frames
      ∧ frames.length = TARGET_FRAME_COUNT
      ∧ ∀ f ∈ frames, f.timestampSeconds = 0 :=
  ⟨(sampler_failure_modes exSamplingEnvBad).1 rfl,
    (sampler_failure_modes exSamplingEnvZero).2 ⟨0, 640, 480⟩ rfl rfl rfl⟩

/-- Counterexample for C7 as stated: at duration 0 the sampler does return
a (100-element) sequence of samples instead of failing. -/
theorem sampler_zero_duration_counterexample :
    ∃ frames, sampleFrames exSamplingEnvZero = .ok frames ∧ frames.length = 100 := by
  refine ⟨_, rfl, by decide⟩

/-- C8: the jersey filter is a pure projection; in particular it is
idempotent — filtering an already-filtered result with the same filter
string returns it unchanged.  (Non-mutation of the underlying result holds
by construction in this functional model: `filteredHighlights` only reads
its arguments.) -/
theorem jersey_filter_idempotent (r : AnalysisResult) (n : String) :
    filteredHighlights (some ⟨filteredHighlights (some r) n, r.summary, r.videoId⟩) n
      = filteredHighlights (some r) n := by
  by_cases hn : jsTrim n = ""
  · simp [filteredHighlights, hn]
  · simp only [filteredHighlights, if_neg hn]
    rw [List.filter_filter]
    exact List.filter_congr (fun h _ => by rw [Bool.and_self])

/-- Helper: the clip loop leaves every non-clip field of every highlight,
and the number and order of highlights, unchanged. -/
theorem clipLoop_map_core (env : ClipEnv) (bt : String) :
    ∀ (l : List Highlight) (i : Nat),
      ((clipLoop env bt i l).1).map coreFields = l.map coreFields := by
  intro l
  induction l with
  | nil => intro i; rfl
  | cons h rest ih =>
    intro i
    rw [clipLoop]
    cases henv : env.execResult i with
    | none => simp [henv, ih (i + 1)]
    | some data => simp [henv, ih (i + 1), coreFields]

/-- Helper: the clip loop issues one trim request per highlight, starting
at `max 0 (timestampSeconds - 5)` with duration 10, in order. -/
theorem clipLoop_requests (env : ClipEnv) (bt : String) :
    ∀ (l : List Highlight) (i : Nat),
      (clipLoop env bt i l).2
        = l.map (fun h => (max 0 (h.timestampSeconds - 5), (10 : ℚ))) := by
  intro l
  induction l with
  | nil => intro i; rfl
  | cons h rest ih =>
    intro i
    rw [clipLoop]
    simp [ih (i + 1)]

/-- Helper: when the engine outcome for clip `i + j` is a failure, the
clip loop started at index `i` leaves the `j`-th highlight exactly as it
was. -/
theorem clipLoop_keeps_failed (env : ClipEnv) (bt : String) :
    ∀ (l : List Highlight) (i j : Nat), env.execResult (i + j) = none →
      ((clipLoop env bt i l).1)[j]? = l[j]? := by
  intro l
  induction l with
  | nil => intro i j _; rfl
  | cons h rest ih =>
    intro i j hfail
    cases j with
    | zero =>
      rw [clipLoop]
      simp only [Nat.add_zero] at hfail
      simp [hfail]
    | succ j' =>
      rw [clipLoop]
      have : env.execResult (i + 1 + j') = none := by
        rw [Nat.add_right_comm]
        simpa [Nat.add_assoc] using hfail
      simp [ih (i + 1) j' this]

/-- Helper: `generateClips` preserves the summary, the videoId, and every
non-clip field of every highlight (in number and order), in every branch. -/
theorem generateClips_core (env : ClipEnv) (analysis : AnalysisResult)
    (file : VideoFile) (s : EngineState) :
    (generateClips env analysis file s).result.summary = analysis.summary
    ∧ (generateClips env analysis file s).result.videoId = analysis.videoId
    ∧ (generateClips env analysis file s).result.highlights.map coreFields
        = analysis.highlights.map coreFields := by
  by_cases h0 : analysis.highlights.length = 0
  · simp [generateClips, h0]
  · by_cases h1 : (tryLoadFFmpeg env s).engine = false
    · simp [generateClips, h0, h1]
    · by_cases h2 : env.writeFileSucceeds = false
      · simp [generateClips, h0, h1, h2]
      · simp [generateClips, h0, h1, h2, clipLoop_map_core]

/-- C10: `generateClips` preserves the number and order of highlights and,
for each highlight, every field other than `clipBlob` and `clipUrl`
(`timestampSeconds`, `displayTime`, `description`, `scoreType`,
`intensity`, `playerJerseyNumber`), and also leaves the summary
(and videoId) unchanged. -/
theorem generateClips_only_adds_clip_data (env : ClipEnv)
    (analysis : AnalysisResult) (file : VideoFile) (s : EngineState) :
    (generateClips env analysis file s).result.summary = analysis.summary
    ∧ (generateClips env analysis file s).result.videoId = analysis.videoId
    ∧ (generateClips env analysis file s).result.highlights.map coreFields
        = analysis.highlights.map coreFields :=
  generateClips_core env analysis file s

/-- C9: for an analysis with no highlights, `generateClips` returns the
analysis unchanged immediately: the engine state is untouched, no load is
attempted, and no trim is requested. -/
theorem generateClips_empty_skips_engine (env : ClipEnv)
    (analysis : AnalysisResult) (file : VideoFile) (s : EngineState)
    (h : analysis.highlights = []) :
    generateClips env analysis file s
      = ⟨analysis, s, false, []⟩ := by
  simp [generateClips, h]

/-- Witness for C9 at a concrete empty analysis. -/
theorem generateClips_empty_skips_engine_witness :
    exEmptyResult.highlights = []
    ∧ generateClips ⟨true, true, fun _ => some [1], fun _ => "blob:x"⟩
        exEmptyResult exFile ⟨false, none⟩
      = ⟨exEmptyResult, ⟨false, none⟩, false, []⟩ :=
  ⟨rfl, generateClips_empty_skips_engine _ exEmptyResult exFile ⟨false, none⟩ rfl⟩

/-- C5: in a session where the engine was determined unavailable
(`isEngineAvailable = some false`, no memoized instance), `generateClips`
returns any analysis unchanged with the engine state untouched, no trim
requests, and `ffmpeg.load` is not re-attempted (`tryLoadFFmpeg`
short-circuits without retrying initialization); no error is raised —
in this model `generateClips` is a total function and this branch returns
normally. -/
theorem engine_unavailable_short_circuit (env : ClipEnv)
    (analysis : AnalysisResult) (file : VideoFile) (s : EngineState)
    (hunavail : s.isEngineAvailable = some false) (hcur : s.ffmpegCurrent = false) :
    generateClips env analysis file s = ⟨analysis, s, false, []⟩
    ∧ tryLoadFFmpeg env s = ⟨false, false, s⟩ := by
  have hload : tryLoadFFmpeg env s = ⟨false, false, s⟩ := by
    rw [tryLoadFFmpeg, if_neg (by simp [hcur]), if_pos hunavail]
  refine ⟨?_, hload⟩
  by_cases h0 : analysis.highlights.length = 0
  · simp [generateClips, h0]
  · simp [generateClips, h0, hload]

/-- Witness for C5 at a concrete unavailable engine state. -/
theorem engine_unavailable_short_circuit_witness :
    generateClips ⟨true, true, fun _ => some [1], fun _ => "blob:x"⟩
        exResult exFile ⟨false, some false⟩
      = ⟨exResult, ⟨false, some false⟩, false, []⟩
    ∧ tryLoadFFmpeg ⟨true, true, fun _ => some [1], fun _ => "blob:x"⟩
        ⟨false, some false⟩
      = ⟨false, false, ⟨false, some false⟩⟩ :=
  engine_unavailable_short_circuit _ exResult exFile ⟨false, some false⟩ rfl rfl

/-- C6: once the engine is obtained and the input file written, the clip
loop requests, for every highlight with timestamp t, a trim starting at
`max 0 (t - 5)` with fixed duration 10; a per-clip failure leaves that
highlight exactly as it was (no clip data gained) while the batch
continues through all highlights; and a run that reaches clip generation
(cache hit, or successful sampling and analysis) always ends COMPLETED,
whatever the per-clip outcomes. -/
theorem clip_trim_window_and_continuation (env : ClipEnv)
    (analysis : AnalysisResult) (file : VideoFile) (s : EngineState)
    (renv : RunEnv) (hist : List HistoryItem) (results0 : Option AnalysisResult)
    (hne : analysis.highlights ≠ [])
    (heng : (tryLoadFFmpeg env s).engine = true)
    (hw : env.writeFileSucceeds = true) :
    (generateClips env analysis file s).trimRequests
        = analysis.highlights.map (fun h => (max 0 (h.timestampSeconds - 5), (10 : ℚ)))
    ∧ (∀ j, env.execResult j = none →
        ((generateClips env analysis file s).result.highlights)[j]?
          = (analysis.highlights)[j]?)
    ∧ ((∃ cached, hist.find? (fun item => item.id == getFileId file) = some cached)
        ∨ ((∃ fr, sampleFrames renv.sampling = .ok fr)
            ∧ ∃ ar, renv.analysisOutcome = .ok ar) →
        (startAnalysis renv file hist s results0).status = .COMPLETED) := by
  have h0 : ¬ analysis.highlights.length = 0 := by
    simpa [List.length_eq_zero] using hne
  have hengff : ¬ (tryLoadFFmpeg env s).engine = false := by simp [heng]
  have hwff : ¬ env.writeFileSucceeds = false := by simp [hw]
  refine ⟨?_, ?_, ?_⟩
  · simp [generateClips, h0, hengff, hwff, clipLoop_requests]
  · intro j hfail
    have hkeep := clipLoop_keeps_failed env
        (if jsIsAudioOnly file then file.mimeType else "video/mp4")
        analysis.highlights 0 j (by simpa using hfail)
    simpa [generateClips, h0, hengff, hwff] using hkeep
  · intro hreach
    rw [startAnalysis]
    cases hfind : hist.find? (fun item => item.id == getFileId file) with
    | some cached => rfl
    | none =>
      rcases hreach with ⟨cached, hc⟩ | ⟨⟨fr, hfr⟩, ⟨ar, har⟩⟩
      · rw [hfind] at hc; cases hc
      · rw [hfr, har]

/-- A clip environment where clip 0 fails and clip 1 succeeds. -/
def exClipEnv : ClipEnv :=
  ⟨true, true, fun i => if i = 0 then none else some [7, 7, 7], fun _ => "blob:clip"⟩

/-- Witness for C6: concrete two-highlight batch where clip 0 fails, on a
cache-hit run. -/
theorem clip_trim_window_and_continuation_witness :
    (generateClips exClipEnv exResult exFile ⟨false, none⟩).trimRequests
        = exResult.highlights.map
            (fun h => (max 0 (h.timestampSeconds - 5), (10 : ℚ)))
    ∧ ((generateClips exClipEnv exResult exFile ⟨false, none⟩).result.highlights)[0]?
        = (exResult.highlights)[0]?
    ∧ (startAnalysis ⟨exSamplingEnv120, .ok exResult, exClipEnv, 9⟩ exFile [exItem]
        ⟨false, none⟩ none).status = .COMPLETED := by
  obtain ⟨h1, h2, h3⟩ := clip_trim_window_and_continuation exClipEnv exResult exFile
    ⟨false, none⟩ ⟨exSamplingEnv120, .ok exResult, exClipEnv, 9⟩ [exItem] none
    (by decide) rfl rfl
  exact ⟨h1, h2 0 rfl, h3 (Or.inl ⟨exItem, by decide⟩)⟩

/-- C1: when the identity of the file has an entry in the history cache,
`startAnalysis` does not call `analyzeVideo`, does not sample frames,
passes the cached `AnalysisResult` verbatim to clip generation, ends
COMPLETED, and the displayed result reuses the cached highlight list
(every non-clip field, in order) and summary exactly. -/
theorem cache_hit_skips_reanalysis (env : RunEnv) (file : VideoFile)
    (hist : List HistoryItem) (s : EngineState) (results0 : Option AnalysisResult)
    (cached : HistoryItem)
    (hc : hist.find? (fun item => item.id == getFileId file) = some cached) :
    (startAnalysis env file hist s results0).analyzeCalled = false
    ∧ (startAnalysis env file hist s results0).sampleCalled = false
    ∧ (startAnalysis env file hist s results0).clipInput = some cached.result
    ∧ (startAnalysis env file hist s results0).status = .COMPLETED
    ∧ ∃ res, (startAnalysis env file hist s results0).results = some res
        ∧ res.summary = cached.result.summary
        ∧ res.highlights.map coreFields = cached.result.highlights.map coreFields := by
  rw [startAnalysis, hc]
  obtain ⟨hsum, _, hcore⟩ := generateClips_core env.clip cached.result file s
  exact ⟨rfl, rfl, rfl, rfl, _, rfl, hsum, hcore⟩

/-- Witness for C1 at a concrete cached file. -/
theorem cache_hit_skips_reanalysis_witness :
    (startAnalysis ⟨exSamplingEnvBad, .error "down", exClipEnv, 9⟩ exFile [exItem]
        ⟨false, none⟩ none).analyzeCalled = false
    ∧ (startAnalysis ⟨exSamplingEnvBad, .error "down", exClipEnv, 9⟩ exFile [exItem]
        ⟨false, none⟩ none).sampleCalled = false
    ∧ (startAnalysis ⟨exSamplingEnvBad, .error "down", exClipEnv, 9⟩ exFile [exItem]
        ⟨false, none⟩ none).clipInput = some exItem.result
    ∧ (startAnalysis ⟨exSamplingEnvBad, .error "down", exClipEnv, 9⟩ exFile [exItem]
        ⟨false, none⟩ none).status = .COMPLETED
    ∧ ∃ res, (startAnalysis ⟨exSamplingEnvBad, .error "down", exClipEnv, 9⟩ exFile
          [exItem] ⟨false, none⟩ none).results = some res
        ∧ res.summary = exItem.result.summary
        ∧ res.highlights.map coreFields = exItem.result.highlights.map coreFields :=
  cache_hit_skips_reanalysis ⟨exSamplingEnvBad, .error "down", exClipEnv, 9⟩ exFile
    [exItem] ⟨false, none⟩ none exItem (by decide)

end Clip3
